import Mathlib

/-!
Shallow embedding of src/de-stash-aws_s3_sync.py: a single-flight wrapper
around an external sync command, with lock admission, subprocess invocation,
outcome classification and an append-only JSON-line audit log.
Clock instants are modelled as abstract Int values; the textual rendering of
library formatting calls (strftime, str of a timedelta) is modelled by
rendering the abstract instant, since no property here depends on the exact
calendar text.
-/

namespace S3Sync

/-- Modules imported at the top of the script (source lines 3 to 10).
Note that the module sys is absent, although line 84 refers to sys.stderr;
evaluating that name raises a NameError at runtime. -/
def importedModules : List String :=
  ["argparse", "json", "os", "subprocess", "tempfile", "time", "datetime", "fcntl"]

/-- JSON values: only strings and objects occur in the records this program
writes. An object is an ordered list of key and value pairs, matching the
insertion order that the Python dict and json.dumps preserve. -/
inductive Json where
  | str (s : String)
  | obj (fields : List (String × Json))

/-- The ordered key list of a JSON object (empty for a string). -/
def Json.keys : Json → List String
  | .obj fs => fs.map Prod.fst
  | .str _ => []

/-- The extra_info dict built at source lines 60 to 68. All values are the
strings that the program stores there. -/
structure ExtraInfo where
  source : String
  destination : String
  options : String
  sync_output : String
  start_time : String
  end_time : String
  duration : String
deriving DecidableEq, Repr

/-- The log_entry dict built in log_message, source lines 14 to 20. -/
structure LogEntry where
  timestamp : String
  unique_id : String
  status : String
  message : String
  extra_info : ExtraInfo
deriving DecidableEq, Repr

/-- Serialization of extra_info in the declared field order (lines 60 to 68). -/
def ExtraInfo.toJson (x : ExtraInfo) : Json :=
  .obj [("source", .str x.source), ("destination", .str x.destination),
        ("options", .str x.options), ("sync_output", .str x.sync_output),
        ("start_time", .str x.start_time), ("end_time", .str x.end_time),
        ("duration", .str x.duration)]

/-- Serialization of a log entry in the declared field order (lines 14 to 20),
modelling json.dumps of the dict. -/
def LogEntry.toJson (e : LogEntry) : Json :=
  .obj [("timestamp", .str e.timestamp), ("unique_id", .str e.unique_id),
        ("status", .str e.status), ("message", .str e.message),
        ("extra_info", e.extra_info.toJson)]

/-- Parsing extra_info back from its serialized form, insisting on the exact
declared key order and shape. -/
def ExtraInfo.fromJson : Json → Option ExtraInfo
  | .obj [("source", .str a), ("destination", .str b), ("options", .str c),
          ("sync_output", .str d), ("start_time", .str e), ("end_time", .str f),
          ("duration", .str g)] => some ⟨a, b, c, d, e, f, g⟩
  | _ => none

/-- Parsing a log record back from its serialized form, insisting on the exact
declared key order and shape; models json.loads plus schema validation. -/
def LogEntry.fromJson : Json → Option LogEntry
  | .obj [("timestamp", .str ts), ("unique_id", .str uid), ("status", .str st),
          ("message", .str msg), ("extra_info", x)] =>
    match ExtraInfo.fromJson x with
    | some xi => some ⟨ts, uid, st, msg, xi⟩
    | none => none
  | _ => none

/-- Decimal digit characters of a natural number, most significant first,
as Python renders a nonnegative int. -/
def pyNatChars (n : Nat) : List Char :=
  if n = 0 then ['0'] else ((Nat.digits 10 n).map Nat.digitChar).reverse

/-- Decimal rendering of a natural number as a string. -/
def pyNatStr (n : Nat) : String := ⟨pyNatChars n⟩

/-- Numeric value of a decimal digit character, used to invert the digit
rendering in the uniqueness proofs. -/
def digitVal (c : Char) : Nat := c.toNat - 48

/-- The invocation id of source line 35: the current time in microseconds and
the process id, joined by a dash. -/
def uniqueId (timeMicros pid : Nat) : String :=
  pyNatStr timeMicros ++ "-" ++ pyNatStr pid

/-- Rendering of a clock instant for the start_time and end_time fields;
abstracts the strftime call of lines 65 and 66. -/
def fmtDatetime (t : Int) : String := toString t

/-- Rendering of a duration for the duration field; abstracts str of the
timedelta computed at line 58. -/
def fmtDuration (d : Int) : String := toString d

/-- Rendering of the UTC timestamp taken inside log_message at line 15. -/
def fmtUtcTimestamp (t : Int) : String := toString t

/-- Command-line arguments after parsing (source lines 25 to 33). -/
structure Args where
  source : String
  destination : String
  sync_options : List String
  o : Bool
  lock : String
  log : String
deriving Repr

/-- The environment one invocation observes: the clock reads, the process id,
whether the non-blocking flock at line 42 succeeds, and the exit code and
captured output of the spawned subprocess. -/
structure Env where
  timeMicros : Nat
  pid : Nat
  startClock : Int
  lockFree : Bool
  runExit : Int
  runStdout : String
  runStderr : String
  endClock : Int
  logClock : Int
deriving Repr

/-- The argument vector of source line 48. -/
def buildCmd (args : Args) : List String :=
  ["aws", "s3", "sync", args.source, args.destination] ++ args.sync_options

/-- Outcome classification of source lines 70 to 81: a pure function of the
exit code alone, returning the status and the message that get logged. -/
def classify (return_code : Int) : String × String :=
  if return_code = 0 then ("info", "Sync successful.")
  else if return_code = 1 then ("error", "Sync failed due to a general error, exit code 1")
  else if return_code = 2 then ("error", "Sync failed due to a permission error, exit code 2")
  else ("error", "Sync failed with exit code " ++ toString return_code)

/-- The captured output kept for the log, source lines 49 to 55: on exit 0
only stdout; on a non-zero exit stdout, a newline, then stderr. -/
def syncOutputOf (return_code : Int) (out err : String) : String :=
  if return_code = 0 then out else out ++ "\n" ++ err

/-- The extra_info dict of source lines 60 to 68 for one invocation. -/
def mkExtraInfo (args : Args) (env : Env) (sync_output : String) : ExtraInfo :=
  { source := args.source
    destination := args.destination
    options := String.intercalate " " args.sync_options
    sync_output := sync_output
    start_time := fmtDatetime env.startClock
    end_time := fmtDatetime env.endClock
    duration := fmtDuration (env.endClock - env.startClock) }

/-- The log_entry dict of source lines 14 to 20. -/
def mkLogEntry (logClock : Int) (unique_id status message : String)
    (extra_info : ExtraInfo) : LogEntry :=
  { timestamp := fmtUtcTimestamp logClock
    unique_id := unique_id
    status := status
    message := message
    extra_info := extra_info }

/-- Effect of log_message on the log store (lines 21 and 22): one open in
append mode followed by a single write of one serialized record. -/
def log_message (logStore : List Json) (entry : LogEntry) : List Json :=
  logStore ++ [LogEntry.toJson entry]

/-- The one entry main logs when the lock gate is passed (line 71 or 83). -/
def loggedEntry (args : Args) (env : Env) : LogEntry :=
  mkLogEntry env.logClock (uniqueId env.timeMicros env.pid)
    (classify env.runExit).1 (classify env.runExit).2
    (mkExtraInfo args env (syncOutputOf env.runExit env.runStdout env.runStderr))

/-- The success summary printed at line 73 when the o flag is given. -/
def wellDoneMsg (args : Args) : String :=
  "Well done. Source directory: " ++ args.source ++ ". Details: " ++ args.log

/-- The message line 84 tries to print to standard error. -/
def errReport (return_code : Int) (sync_output unique_id : String) : String :=
  "Error.\nExit code " ++ toString return_code ++ ": " ++ sync_output ++
    "\nUNIQUE_ID " ++ unique_id

/-- Observable events of one invocation, in program order. -/
inductive Event where
  | readClock (t : Int)
  | lockTry (ok : Bool)
  | spawn (cmd : List String)
  | appendLog (e : LogEntry)
  | printOut (s : String)
  | printErr (s : String)
  | raiseNameError (n : String)
deriving DecidableEq, Repr

/-- Events after the log append (lines 72 to 73 and line 84): on success an
optional summary on stdout; on failure the print to sys.stderr, which raises
NameError because sys is not among the imported modules. -/
def tailEvents (args : Args) (env : Env) : List Event :=
  if env.runExit = 0 then
    if args.o then [Event.printOut (wellDoneMsg args)] else []
  else if "sys" ∈ importedModules then
    [Event.printErr (errReport env.runExit
      (syncOutputOf env.runExit env.runStdout env.runStderr)
      (uniqueId env.timeMicros env.pid))]
  else [Event.raiseNameError "sys"]

/-- Result of one invocation: its event trace and the final log store. -/
structure RunOutcome where
  events : List Event
  logStore : List Json

/-- The body of main, source lines 35 to 84, as a function of the observed
environment: line 35 computes the id, line 37 reads the start clock, lines
40 to 45 try the lock and on failure print and return, line 48 builds the
command, lines 49 to 55 spawn it and capture its outcome, line 57 reads the
end clock, lines 70 to 84 log the classified outcome and print. -/
def mainRun (args : Args) (env : Env) (log0 : List Json) : RunOutcome :=
  if env.lockFree then
    { events := Event.readClock env.startClock :: Event.lockTry true ::
        Event.spawn (buildCmd args) :: Event.readClock env.endClock ::
        Event.appendLog (loggedEntry args env) :: tailEvents args env
      logStore := log_message log0 (loggedEntry args env) }
  else
    { events := [Event.readClock env.startClock, Event.lockTry false,
        Event.printOut "Error: Could not acquire lock"]
      logStore := log0 }

/-- True on clock-read events. -/
def isClockRead : Event → Bool
  | .readClock _ => true
  | _ => false

/-- True on lock-attempt events. -/
def isLockTry : Event → Bool
  | .lockTry _ => true
  | _ => false

/-- True on subprocess-spawn events. -/
def isSpawn : Event → Bool
  | .spawn _ => true
  | _ => false

/-- True on log-append events. -/
def isAppendLog : Event → Bool
  | .appendLog _ => true
  | _ => false

/-- True on standard-error print events. -/
def isPrintErr : Event → Bool
  | .printErr _ => true
  | _ => false

/-- True on NameError events. -/
def isNameErrorEvent : Event → Bool
  | .raiseNameError _ => true
  | _ => false

/-- Process exit status: an uncaught NameError makes the interpreter exit
with status 1; every other path falls off main and exits with status 0. -/
def exitStatus (r : RunOutcome) : Int :=
  if r.events.any isNameErrorEvent then 1 else 0

/-- Concrete arguments used to evaluate the model on sample runs. -/
def cargs : Args :=
  { source := "/data"
    destination := "remote:/bucket"
    sync_options := ["--delete"]
    o := false
    lock := "/var/lock/aws_s3_sync.lock"
    log := "/var/log/aws_s3_sync.log" }

/-- Concrete environment of a successful run: lock free, exit code 0. -/
def cenv0 : Env :=
  { timeMicros := 3
    pid := 7
    startClock := 10
    lockFree := true
    runExit := 0
    runStdout := "copied"
    runStderr := ""
    endClock := 15
    logClock := 16 }

/-- Concrete environment of a failing run: lock free, exit code 1. -/
def cenv1 : Env :=
  { timeMicros := 3
    pid := 7
    startClock := 10
    lockFree := true
    runExit := 1
    runStdout := "out"
    runStderr := "err"
    endClock := 15
    logClock := 16 }

/-- Concrete environment of a run that loses the lock race. -/
def cenvLock : Env :=
  { timeMicros := 3
    pid := 7
    startClock := 10
    lockFree := false
    runExit := 0
    runStdout := ""
    runStderr := ""
    endClock := 15
    logClock := 16 }

/-- No event after the log append is itself a log append. -/
theorem tailEvents_append_free (args : Args) (env : Env) (entry : LogEntry) :
    Event.appendLog entry ∉ tailEvents args env := by
  unfold tailEvents
  split
  · split <;> simp
  · split <;> simp [importedModules] at *

/-- The only entry an invocation can append is the classified entry. -/
theorem appendLog_mem_mainRun (args : Args) (env : Env) (log0 : List Json)
    (entry : LogEntry) (h : Event.appendLog entry ∈ (mainRun args env log0).events) :
    env.lockFree = true ∧ entry = loggedEntry args env := by
  by_cases hl : env.lockFree
  · refine ⟨hl, ?_⟩
    simp only [mainRun, hl, if_true, List.mem_cons, List.mem_singleton,
      reduceCtorEq, false_or] at h
    rcases h with h | h
    · exact congrArg (fun ev => match ev with
        | Event.appendLog e => e
        | _ => entry) h
    · exact absurd h (tailEvents_append_free args env entry)
  · exact absurd h (by simp [mainRun, hl])

/-- C1: the outcome classification is a pure function of the exit code alone;
exit 0 maps to info with message "Sync successful.", exit 1 and 2 to error
with their fixed messages, any other code N to error with the message naming
N; and every entry an invocation logs carries exactly the classified status
and message for the exit code the subprocess returned. -/
theorem c1_classification (n : Int) (h0 : n ≠ 0) (h1 : n ≠ 1) (h2 : n ≠ 2) :
    classify 0 = ("info", "Sync successful.") ∧
    classify 1 = ("error", "Sync failed due to a general error, exit code 1") ∧
    classify 2 = ("error", "Sync failed due to a permission error, exit code 2") ∧
    classify n = ("error", "Sync failed with exit code " ++ toString n) ∧
    ∀ (args : Args) (env : Env) (log0 : List Json) (entry : LogEntry),
      Event.appendLog entry ∈ (mainRun args env log0).events →
      entry.status = (classify env.runExit).1 ∧
      entry.message = (classify env.runExit).2 := by
  refine ⟨rfl, rfl, rfl, by simp [classify, h0, h1, h2], ?_⟩
  intro args env log0 entry h
  obtain ⟨-, hentry⟩ := appendLog_mem_mainRun args env log0 entry h
  subst hentry
  exact ⟨rfl, rfl⟩

/-- Witness for C1 at the concrete exit code 13. -/
theorem c1_classification_witness :
    classify 0 = ("info", "Sync successful.") ∧
    classify 1 = ("error", "Sync failed due to a general error, exit code 1") ∧
    classify 2 = ("error", "Sync failed due to a permission error, exit code 2") ∧
    classify 13 = ("error", "Sync failed with exit code " ++ toString (13 : Int)) ∧
    ∀ (args : Args) (env : Env) (log0 : List Json) (entry : LogEntry),
      Event.appendLog entry ∈ (mainRun args env log0).events →
      entry.status = (classify env.runExit).1 ∧
      entry.message = (classify env.runExit).2 :=
  c1_classification 13 (by decide) (by decide) (by decide)

/-- C2: when the subprocess exits 0, exactly one entry is appended, with
status info, message "Sync successful.", and a duration field that renders
endTime minus startTime, a nonnegative quantity. -/
theorem c2_success_entry (args : Args) (env : Env) (log0 : List Json)
    (hl : env.lockFree = true) (he : env.runExit = 0)
    (hc : env.startClock ≤ env.endClock) :
    ∃ entry : LogEntry,
      (mainRun args env log0).logStore = log0 ++ [LogEntry.toJson entry] ∧
      entry.status = "info" ∧
      entry.message = "Sync successful." ∧
      entry.extra_info.duration = fmtDuration (env.endClock - env.startClock) ∧
      0 ≤ env.endClock - env.startClock := by
  refine ⟨loggedEntry args env, ?_, ?_, ?_, rfl, by omega⟩
  · simp [mainRun, hl, log_message]
  · simp [loggedEntry, mkLogEntry, classify, he]
  · simp [loggedEntry, mkLogEntry, classify, he]

/-- Witness for C2 at the concrete successful environment. -/
theorem c2_success_entry_witness :
    ∃ entry : LogEntry,
      (mainRun cargs cenv0 []).logStore = [] ++ [LogEntry.toJson entry] ∧
      entry.status = "info" ∧
      entry.message = "Sync successful." ∧
      entry.extra_info.duration = fmtDuration (cenv0.endClock - cenv0.startClock) ∧
      0 ≤ cenv0.endClock - cenv0.startClock :=
  c2_success_entry cargs cenv0 [] rfl rfl (by decide)

/-- C3: when the lock is already held, the log store is unchanged, nothing
is spawned and nothing is appended, the fixed contention message goes to
standard output, and the process exits with status 0. -/
theorem c3_lock_contention (args : Args) (env : Env) (log0 : List Json)
    (hl : env.lockFree = false) :
    (mainRun args env log0).logStore = log0 ∧
    (mainRun args env log0).events.countP isSpawn = 0 ∧
    (mainRun args env log0).events.countP isAppendLog = 0 ∧
    Event.printOut "Error: Could not acquire lock" ∈ (mainRun args env log0).events ∧
    exitStatus (mainRun args env log0) = 0 := by
  refine ⟨?_, ?_, ?_, ?_, ?_⟩ <;>
    simp [mainRun, hl, exitStatus, List.countP_cons, isSpawn, isAppendLog,
      isNameErrorEvent]

/-- Witness for C3 at the concrete contended environment. -/
theorem c3_lock_contention_witness :
    (mainRun cargs cenvLock []).logStore = [] ∧
    (mainRun cargs cenvLock []).events.countP isSpawn = 0 ∧
    (mainRun cargs cenvLock []).events.countP isAppendLog = 0 ∧
    Event.printOut "Error: Could not acquire lock" ∈ (mainRun cargs cenvLock []).events ∧
    exitStatus (mainRun cargs cenvLock []) = 0 :=
  c3_lock_contention cargs cenvLock [] rfl

/-- C4 evaluation: with the lock free and exit code 1, the error entry is
appended, but no standard-error report is ever produced: the module sys is
not among the imports, so line 84 raises NameError after the log write, and
the process exits with status 1 instead of printing the report. -/
theorem c4_stderr_report_lost :
    "sys" ∉ importedModules ∧
    (mainRun cargs cenv1 []).events.countP isAppendLog = 1 ∧
    (mainRun cargs cenv1 []).events.countP isPrintErr = 0 ∧
    Event.raiseNameError "sys" ∈ (mainRun cargs cenv1 []).events ∧
    exitStatus (mainRun cargs cenv1 []) = 1 := by
  refine ⟨by decide, ?_, ?_, ?_, ?_⟩ <;>
    simp [mainRun, cargs, cenv1, tailEvents, exitStatus, List.countP_cons,
      isAppendLog, isPrintErr, isNameErrorEvent, importedModules]

/-- C5 counterexample: on a concrete run that passes the lock gate, the
start clock is read strictly before the lock attempt, not after lock
acquisition as the claim states. -/
theorem c5_counterexample :
    Event.lockTry true ∈ (mainRun cargs cenv1 []).events ∧
    ¬ ((mainRun cargs cenv1 []).events.findIdx isLockTry <
       (mainRun cargs cenv1 []).events.findIdx isClockRead) := by
  constructor
  · simp [mainRun, cenv1]
  · simp [mainRun, cenv1, List.findIdx_cons, isLockTry, isClockRead]

/-- C5 amended: the start clock is read before the lock attempt, the lock
attempt happens before the spawn, and the end clock is read immediately
after the spawned command exits; so the logged duration spans lock
acquisition plus the subprocess execution. -/
theorem c5_amended (args : Args) (env : Env) (log0 : List Json)
    (hl : env.lockFree = true) :
    ((mainRun args env log0).events.findIdx isClockRead <
      (mainRun args env log0).events.findIdx isLockTry) ∧
    ((mainRun args env log0).events.findIdx isLockTry <
      (mainRun args env log0).events.findIdx isSpawn) ∧
    (mainRun args env log0).events[(mainRun args env log0).events.findIdx isSpawn + 1]? =
      some (Event.readClock env.endClock) := by
  refine ⟨?_, ?_, ?_⟩ <;>
    simp [mainRun, hl, List.findIdx_cons, isClockRead, isLockTry, isSpawn]

/-- Witness for the amended C5 at the concrete successful environment. -/
theorem c5_amended_witness :
    (((mainRun cargs cenv0 []).events.findIdx isClockRead <
      (mainRun cargs cenv0 []).events.findIdx isLockTry) ∧
    ((mainRun cargs cenv0 []).events.findIdx isLockTry <
      (mainRun cargs cenv0 []).events.findIdx isSpawn) ∧
    (mainRun cargs cenv0 []).events[(mainRun cargs cenv0 []).events.findIdx isSpawn + 1]? =
      some (Event.readClock cenv0.endClock)) :=
  c5_amended cargs cenv0 [] rfl

/-- C6: parsing an emitted record back reconstructs every field of the entry
losslessly, and the serialized key order at both levels is exactly the
declared schema order. -/
theorem c6_roundtrip (e : LogEntry) :
    LogEntry.fromJson (LogEntry.toJson e) = some e ∧
    Json.keys (LogEntry.toJson e) =
      ["timestamp", "unique_id", "status", "message", "extra_info"] ∧
    Json.keys (ExtraInfo.toJson e.extra_info) =
      ["source", "destination", "options", "sync_output", "start_time",
       "end_time", "duration"] :=
  ⟨rfl, rfl, rfl⟩

/-- C8: the log store is append-only: on every path the prior store is a
prefix of the final store, at most one record is added per invocation, and
one record operation appends exactly one serialized record. -/
theorem c8_append_only (args : Args) (env : Env) (log0 : List Json) :
    log0 <+: (mainRun args env log0).logStore ∧
    (mainRun args env log0).logStore.length ≤ log0.length + 1 ∧
    ∀ entry : LogEntry, log_message log0 entry = log0 ++ [LogEntry.toJson entry] := by
  by_cases hl : env.lockFree <;>
    simp [mainRun, hl, log_message, List.prefix_append, List.prefix_refl]

/-- No event after the log append is a subprocess spawn. -/
theorem tailEvents_spawn_free (args : Args) (env : Env) :
    (tailEvents args env).filter isSpawn = [] := by
  unfold tailEvents
  split
  · split <;> simp [isSpawn]
  · split <;> simp [isSpawn]

/-- C9: a run that passes the lock gate spawns the external command exactly
once, with exactly the vector aws s3 sync, the source, the destination, then
the caller-supplied options in order; and the exit code and captured output
flow verbatim into the classification and the logged entry. -/
theorem c9_spawn_verbatim (args : Args) (env : Env) (log0 : List Json)
    (hl : env.lockFree = true) :
    (mainRun args env log0).events.filter isSpawn =
      [Event.spawn (["aws", "s3", "sync", args.source, args.destination] ++
        args.sync_options)] ∧
    ∃ entry : LogEntry,
      (mainRun args env log0).logStore = log0 ++ [LogEntry.toJson entry] ∧
      entry.status = (classify env.runExit).1 ∧
      entry.message = (classify env.runExit).2 ∧
      entry.extra_info.sync_output =
        syncOutputOf env.runExit env.runStdout env.runStderr := by
  refine ⟨?_, loggedEntry args env, ?_, rfl, rfl, rfl⟩
  · simp [mainRun, hl, List.filter_cons, isSpawn, tailEvents_spawn_free, buildCmd]
  · simp [mainRun, hl, log_message]

/-- Witness for C9 at the concrete failing environment. -/
theorem c9_spawn_verbatim_witness :
    ((mainRun cargs cenv1 []).events.filter isSpawn =
      [Event.spawn (["aws", "s3", "sync", cargs.source, cargs.destination] ++
        cargs.sync_options)] ∧
    ∃ entry : LogEntry,
      (mainRun cargs cenv1 []).logStore = [] ++ [LogEntry.toJson entry] ∧
      entry.status = (classify cenv1.runExit).1 ∧
      entry.message = (classify cenv1.runExit).2 ∧
      entry.extra_info.sync_output =
        syncOutputOf cenv1.runExit cenv1.runStdout cenv1.runStderr) :=
  c9_spawn_verbatim cargs cenv1 [] rfl

/-- C10: on exit 0 the logged sync output is the captured stdout alone,
stderr being discarded; on a non-zero exit it is stdout, a newline, then
stderr. -/
theorem c10_output_capture (args : Args) (env : Env) (log0 : List Json)
    (hl : env.lockFree = true) :
    ∃ entry : LogEntry,
      (mainRun args env log0).logStore = log0 ++ [LogEntry.toJson entry] ∧
      entry.extra_info.sync_output =
        (if env.runExit = 0 then env.runStdout
         else env.runStdout ++ "\n" ++ env.runStderr) := by
  refine ⟨loggedEntry args env, by simp [mainRun, hl, log_message], ?_⟩
  by_cases he : env.runExit = 0 <;>
    simp [loggedEntry, mkLogEntry, mkExtraInfo, syncOutputOf, he]

/-- Witness for C10 at the concrete successful environment. -/
theorem c10_output_capture_witness :
    ∃ entry : LogEntry,
      (mainRun cargs cenv0 []).logStore = [] ++ [LogEntry.toJson entry] ∧
      entry.extra_info.sync_output =
        (if cenv0.runExit = 0 then cenv0.runStdout
         else cenv0.runStdout ++ "\n" ++ cenv0.runStderr) :=
  c10_output_capture cargs cenv0 [] rfl

/-- The digit value inverts the digit character for digits below ten. -/
theorem digitVal_digitChar (d : Nat) (h : d < 10) :
    digitVal (Nat.digitChar d) = d := by
  interval_cases d <;> rfl

/-- No digit below ten renders as a dash. -/
theorem digitChar_ne_dash (d : Nat) (h : d < 10) : Nat.digitChar d ≠ '-' := by
  interval_cases d <;> decide

/-- Mapping the digit value over rendered digits recovers the digit list. -/
theorem map_digitVal_map_digitChar (l : List Nat) (h : ∀ d ∈ l, d < 10) :
    (l.map Nat.digitChar).map digitVal = l := by
  induction l with
  | nil => rfl
  | cons a t ih =>
    have h1 : digitVal (Nat.digitChar a) = a := digitVal_digitChar a (h a (by simp))
    have h2 := ih (fun d hd => h d (by simp [hd]))
    simp [h1, h2]

/-- The decimal rendering of a natural number never contains a dash. -/
theorem dash_not_mem_pyNatChars (n : Nat) : '-' ∉ pyNatChars n := by
  unfold pyNatChars
  split
  · decide
  · intro hmem
    simp only [List.mem_reverse, List.mem_map] at hmem
    obtain ⟨d, hd, hdc⟩ := hmem
    exact digitChar_ne_dash d (Nat.digits_lt_base (by norm_num) hd) hdc

/-- If the rendered digits of m read as the single character zero, m is 0. -/
theorem pyMap_eq_zero_aux (m : Nat)
    (h1 : (Nat.digits 10 m).map Nat.digitChar = ['0']) : m = 0 := by
  have h2 : Nat.digits 10 m = [0] := by
    have h3 := map_digitVal_map_digitChar (Nat.digits 10 m)
      (fun d hd => Nat.digits_lt_base (by norm_num) hd)
    rw [← h3, h1]
    rfl
  have h4 := Nat.ofDigits_digits 10 m
  rw [h2] at h4
  simpa [Nat.ofDigits] using h4.symm

/-- Equal digit renderings force equal numbers. -/
theorem digits_map_digitChar_inj (n m : Nat)
    (h : (Nat.digits 10 n).map Nat.digitChar = (Nat.digits 10 m).map Nat.digitChar) :
    n = m := by
  have hn := map_digitVal_map_digitChar (Nat.digits 10 n)
    (fun d hd => Nat.digits_lt_base (by norm_num) hd)
  have hm := map_digitVal_map_digitChar (Nat.digits 10 m)
    (fun d hd => Nat.digits_lt_base (by norm_num) hd)
  have heq : Nat.digits 10 n = Nat.digits 10 m := by
    rw [← hn, ← hm, h]
  exact Nat.digits_inj_iff.mp heq

/-- The decimal character rendering is injective. -/
theorem pyNatChars_inj (n m : Nat) (h : pyNatChars n = pyNatChars m) : n = m := by
  by_cases hn : n = 0 <;> by_cases hm : m = 0
  · omega
  · subst hn
    rw [pyNatChars, pyNatChars, if_pos rfl, if_neg hm] at h
    have h1 : (Nat.digits 10 m).map Nat.digitChar = ['0'] := by
      have h0 := congrArg List.reverse h
      simpa using h0.symm
    exact absurd (pyMap_eq_zero_aux m h1) hm
  · subst hm
    rw [pyNatChars, pyNatChars, if_pos rfl, if_neg hn] at h
    have h1 : (Nat.digits 10 n).map Nat.digitChar = ['0'] := by
      have h0 := congrArg List.reverse h
      simpa using h0
    exact absurd (pyMap_eq_zero_aux n h1) hn
  · rw [pyNatChars, pyNatChars, if_neg hn, if_neg hm] at h
    exact digits_map_digitChar_inj n m (List.reverse_injective h)

/-- Splitting at a dash that occurs in neither left part is unambiguous. -/
theorem append_dash_inj (a₁ : List Char) :
    ∀ (a₂ b₁ b₂ : List Char), '-' ∉ a₁ → '-' ∉ a₂ →
      a₁ ++ '-' :: b₁ = a₂ ++ '-' :: b₂ → a₁ = a₂ ∧ b₁ = b₂ := by
  induction a₁ with
  | nil =>
    intro a₂ b₁ b₂ h1 h2 heq
    cases a₂ with
    | nil => simpa using heq
    | cons c t =>
      exfalso
      simp only [List.nil_append, List.cons_append, List.cons.injEq] at heq
      exact h2 (by rw [heq.1]; exact List.mem_cons_self c t)
  | cons c t ih =>
    intro a₂ b₁ b₂ h1 h2 heq
    cases a₂ with
    | nil =>
      exfalso
      simp only [List.nil_append, List.cons_append, List.cons.injEq] at heq
      exact h1 (by rw [← heq.1]; exact List.mem_cons_self c t)
    | cons c' t' =>
      simp only [List.cons_append, List.cons.injEq] at heq
      obtain ⟨hc, ht⟩ := heq
      have h1' : '-' ∉ t := fun hh => h1 (List.mem_cons_of_mem c hh)
      have h2' : '-' ∉ t' := fun hh => h2 (List.mem_cons_of_mem c' hh)
      obtain ⟨e1, e2⟩ := ih t' b₁ b₂ h1' h2' ht
      exact ⟨by rw [hc, e1], e2⟩

/-- Two equal invocation ids share both the time and the process id. -/
theorem uniqueId_inj (t₁ p₁ t₂ p₂ : Nat) (h : uniqueId t₁ p₁ = uniqueId t₂ p₂) :
    t₁ = t₂ ∧ p₁ = p₂ := by
  have hd : pyNatChars t₁ ++ '-' :: pyNatChars p₁ =
      pyNatChars t₂ ++ '-' :: pyNatChars p₂ := by
    have h0 := congrArg String.data h
    simpa [uniqueId, pyNatStr, String.data_append] using h0
  obtain ⟨e1, e2⟩ := append_dash_inj (pyNatChars t₁) (pyNatChars t₂)
    (pyNatChars p₁) (pyNatChars p₂)
    (dash_not_mem_pyNatChars t₁) (dash_not_mem_pyNatChars t₂) hd
  exact ⟨pyNatChars_inj t₁ t₂ e1, pyNatChars_inj p₁ p₂ e2⟩

/-- C7: the invocation id is the microsecond time and the process id joined
by a dash, and two invocations that do not share both values get distinct
ids. -/
theorem c7_invocation_id (t₁ p₁ t₂ p₂ : Nat) (h : ¬ (t₁ = t₂ ∧ p₁ = p₂)) :
    uniqueId t₁ p₁ ≠ uniqueId t₂ p₂ :=
  fun heq => h (uniqueId_inj t₁ p₁ t₂ p₂ heq)

/-- Witness for C7 at two concrete invocations with equal time, distinct pid. -/
theorem c7_invocation_id_witness : uniqueId 1000 5 ≠ uniqueId 1000 6 :=
  c7_invocation_id 1000 5 1000 6 (by decide)

end S3Sync
